import Mathlib

/-!
Shallow embedding of the GLT code generators of `src/spl/api/ast/glt.py`
(`GltKernel._initialize`, `GltInterface._initialize`, and the public
accessors of `GltKernel`) and of the facade argument check of
`src/spl/api/glt.py` (`DiscreteGltExpr._check_arguments`).

The symbolic-algebra library (sympy/sympde/gelato) is external to the
repository; the reduced symbol expression returned by `gelatize` + `expand`
is therefore abstracted as `Glt.SymExpr`: a scalar cell or a matrix of
cells, where each cell records the only two facts about a cell the code
under verification inspects, namely whether the cell contains an
`ImaginaryUnit` atom (glt.py line 582/588) and the maximal partial
derivative order of the cell (`max(get_max_partial_derivatives(...).values())`,
glt.py lines 375-379).

The inputs that `_initialize` reads from the symbolic objects are collected
in `Glt.GltEnv`; argument lists of the generated routines are modelled as
lists of `Glt.ArgSlot`, and the generated interface body as a list of
`Glt.Stmt`.
-/

namespace Glt

/-- Abstraction of one cell of the reduced symbol expression: the two facts
about a cell that `GltKernel._initialize` inspects. -/
structure Cell where
  hasImaginaryUnit : Bool
  maxDerivOrder : Nat
deriving DecidableEq, Repr, Inhabited

/-- The reduced symbol returned by `gelatize` + `expand` (glt.py lines
189-243): either a scalar expression or a sympy matrix of cells. -/
inductive SymExpr where
  | scalar (c : Cell)
  | matrix (cells : List (List Cell))
deriving DecidableEq, Repr

/-- Number of output rows (glt.py lines 250-253): 1 for a scalar symbol,
`expr.shape[0]` for a matrix symbol. -/
def n_rows : SymExpr → Nat
  | .scalar _ => 1
  | .matrix cells => cells.length

/-- Number of output columns (glt.py lines 250-253): 1 for a scalar symbol,
`expr.shape[1]` for a matrix symbol. -/
def n_cols : SymExpr → Nat
  | .scalar _ => 1
  | .matrix cells => (cells.headD []).length

/-- Cell access `expr[i,j]`; on a scalar symbol every access yields the
unique cell (the code only indexes matrix symbols). -/
def cellAt : SymExpr → Nat → Nat → Cell
  | .scalar c, _, _ => c
  | .matrix cells, i, j => (cells.getD i []).getD j default

/-- A `ScalarField` atom of the reduced expression together with the name of
its owning discretization space (`F.space.name`, glt.py lines 339, 346-348). -/
structure FieldAtom where
  name : String
  space : String
deriving DecidableEq, Repr

/-- The data `GltKernel._initialize` / `GltInterface._initialize` read from
the symbolic objects.  `fieldAtoms` is `tuple(expr.atoms(ScalarField))`
(a sympy set, hence in nondeterministic order), while `formFields` is
`sorted(form.fields)` (deterministic).  `mappingCoeffs`/`mappingValues` are
the printed names delivered by the external `EvalArrayMapping` sub-kernel
(glt.py lines 428-439); they are only consulted when `mappingPresent`. -/
structure GltEnv where
  dim : Nat
  coordinates : List String
  constants : List String
  formFields : List String
  fieldAtoms : List FieldAtom
  mappingPresent : Bool
  mappingCoeffs : List String
  mappingValues : List String
  expr : SymExpr
deriving DecidableEq, Repr

/-- One positional argument of a generated routine.  Constructors that carry
an axis number use 1-based numbering as the generated names do (`arr_t1`,
`p1`, `spans1`, `basis1`).  `field_coeff` carries the name of the declared
kernel coefficient array (`coeff_F`, named after a field atom of the reduced
expression), while `field_data` is the value the interface passes for such a
parameter (`F._coeffs._data`, named after a sorted form field): the two are
different syntactic objects in the generated code and are related by
position only, which `ArgSlot.cat` makes precise. -/
inductive ArgSlot where
  | arr_t (i : Nat)
  | coordinate (name : String)
  | degree (i : Nat)
  | span (i : Nat)
  | basisArr (i : Nat)
  | field_coeff (name : String)
  | field_data (name : String)
  | mapping_coeff (name : String)
  | mat (i j : Nat)
  | constant (name : String)
  | test_space
  | basis_values
  | mapping_obj
  | field_obj (name : String)
  | mat_nil (i j : Nat)
deriving DecidableEq, Repr

/-- Argument category, used to state the block-order invariant between the
kernel declaration and the interface call. -/
inductive ArgCat where
  | coordArray
  | coordVar
  | degreeCat
  | spanCat
  | basisCat
  | fieldCoeffCat
  | mappingCoeffCat
  | outputCat
  | constCat
  | testSpaceCat
  | basisValuesCat
  | mappingObjCat
  | fieldObjCat
  | outputNilCat
deriving DecidableEq, Repr

/-- Category of an argument slot.  A `field_data` value is what the
interface supplies for a `field_coeff` parameter, so both map to
`fieldCoeffCat`. -/
def ArgSlot.cat : ArgSlot → ArgCat
  | .arr_t _ => .coordArray
  | .coordinate _ => .coordVar
  | .degree _ => .degreeCat
  | .span _ => .spanCat
  | .basisArr _ => .basisCat
  | .field_coeff _ => .fieldCoeffCat
  | .field_data _ => .fieldCoeffCat
  | .mapping_coeff _ => .mappingCoeffCat
  | .mat _ _ => .outputCat
  | .constant _ => .constCat
  | .test_space => .testSpaceCat
  | .basis_values => .basisValuesCat
  | .mapping_obj => .mappingObjCat
  | .field_obj _ => .fieldObjCat
  | .mat_nil _ _ => .outputNilCat

/-- `self._basic_args = [*arr_tis]` (glt.py lines 563-564): the flat
coordinate input arrays `arr_t1 .. arr_td`. -/
def kernel_basic_args (env : GltEnv) : List ArgSlot :=
  (List.range env.dim).map (fun i => ArgSlot.arr_t (i + 1))

/-- `self._coordinates = tuple(self.expr.space_variables)` (glt.py line 290). -/
def coordinate_args (env : GltEnv) : List ArgSlot :=
  env.coordinates.map ArgSlot.coordinate

/-- `degrees = variables('p1:%d' % (dim+1), 'int')` (glt.py line 266). -/
def degree_args (env : GltEnv) : List ArgSlot :=
  (List.range env.dim).map (fun i => ArgSlot.degree (i + 1))

/-- `spans = variables('spans1:%s' % (dim+1), ...)` (glt.py lines 284-287). -/
def span_args (env : GltEnv) : List ArgSlot :=
  (List.range env.dim).map (fun i => ArgSlot.span (i + 1))

/-- `basis = variables('basis1:%s' % (dim+1), ...)` (glt.py lines 279-282). -/
def basis_args (env : GltEnv) : List ArgSlot :=
  (List.range env.dim).map (fun i => ArgSlot.basisArr (i + 1))

/-- `fields_coeffs = variables(['coeff_{}'.format(f) for f in field_atoms], ...)`
(glt.py lines 405-406); one coefficient array per `ScalarField` atom of the
reduced expression, in atom-enumeration order. -/
def fields_coeffs_args (env : GltEnv) : List ArgSlot :=
  env.fieldAtoms.map (fun f => ArgSlot.field_coeff ("coeff_" ++ f.name))

/-- `self.expr.constants` appended by `GltKernel.build_arguments`
(glt.py lines 167-174). -/
def constant_args (env : GltEnv) : List ArgSlot :=
  env.constants.map ArgSlot.constant

/-- The ordered output-matrix set `mats` (glt.py lines 567-573): the python
code appends `d_symbols[i,j]` for `i in range(n_rows)`, `j in range(n_cols)`,
i.e. row-major enumeration of the index pairs. -/
def global_mats (e : SymExpr) : List (Nat × Nat) :=
  (List.range (n_rows e)).flatMap (fun i => (List.range (n_cols e)).map (fun j => (i, j)))

/-- The per-cell dtypes `mats_types` (glt.py lines 577-593): in the matrix
case the code loops row-major and tags each cell `'complex'` exactly when
`expr[i,j].atoms(ImaginaryUnit)` is non-empty, else `'float'`; in the scalar
case the whole expression is inspected once. -/
def global_mats_types (e : SymExpr) : List String :=
  match e with
  | .matrix _ =>
      (List.range (n_rows e)).flatMap (fun i =>
        (List.range (n_cols e)).map (fun j =>
          if (cellAt e i j).hasImaginaryUnit then "complex" else "float"))
  | .scalar c => [if c.hasImaginaryUnit then "complex" else "float"]

/-- The kernel's `nderiv` (glt.py lines 369-381): initialized to 1 and then
maximized with the per-cell maximal partial derivative order, row-major over
the matrix shape, or over the single scalar expression. -/
def kernel_nderiv (e : SymExpr) : Nat :=
  match e with
  | .matrix _ =>
      (List.range (n_rows e)).foldl (fun acc i =>
        (List.range (n_cols e)).foldl
          (fun a j => Nat.max a (cellAt e i j).maxDerivOrder) acc) 1
  | .scalar c => Nat.max 1 c.maxDerivOrder

/-- Modelled from the spec: the maximum derivative order "determined by
scanning all cells" (spec 4.1 step 6), with no lower bound.  This is the
value claim C8 says is passed to the mapping sub-kernel; compare with
`kernel_nderiv`, which the code actually computes. -/
def spec_scanned_nderiv (e : SymExpr) : Nat :=
  match e with
  | .matrix _ =>
      (List.range (n_rows e)).foldl (fun acc i =>
        (List.range (n_cols e)).foldl
          (fun a j => Nat.max a (cellAt e i j).maxDerivOrder) acc) 0
  | .scalar c => c.maxDerivOrder

/-- The mapping sub-kernel request (glt.py lines 384-398): when a mapping is
present, `EvalArrayMapping(space, mapping, nderiv=nderiv, ...)` is issued
with the kernel's `nderiv`; otherwise `self._eval_mapping` stays `None`.
The `Option` value is the `nderiv` parameter of the request. -/
def eval_mapping_nderiv (env : GltEnv) : Option Nat :=
  if env.mappingPresent then some (kernel_nderiv env.expr) else none

/-- `GltKernel.mapping_coeffs` (glt.py lines 129-134): the empty tuple when
`eval_mapping` is `None`, else the sub-kernel's coefficient list. -/
def kernel_mapping_coeffs (env : GltEnv) : List String :=
  match eval_mapping_nderiv env with
  | none => []
  | some _ => env.mappingCoeffs

/-- `GltKernel.mapping_values` (glt.py lines 136-141). -/
def kernel_mapping_values (env : GltEnv) : List String :=
  match eval_mapping_nderiv env with
  | none => []
  | some _ => env.mappingValues

/-- The kernel's declared mapping-coefficient arguments
(glt.py lines 425-436): empty without a mapping, else one array per printed
mapping coefficient. -/
def kernel_mapping_coeff_args (env : GltEnv) : List ArgSlot :=
  (kernel_mapping_coeffs env).map ArgSlot.mapping_coeff

/-- The output-matrix arguments of the kernel signature. -/
def mats_args (e : SymExpr) : List ArgSlot :=
  (global_mats e).map (fun ij => ArgSlot.mat ij.1 ij.2)

/-- `GltKernel.build_arguments` (glt.py lines 167-174): prepend the basic
args and, when the form has constants, append them. -/
def GltKernel_build_arguments (env : GltEnv) (data : List ArgSlot) : List ArgSlot :=
  let other := if env.constants.isEmpty then data else data ++ constant_args env
  kernel_basic_args env ++ other

/-- Whether the reduced expression contains field atoms: at glt.py line 600
the local `fields` holds `symbols(fields_str)`, non-empty exactly when the
atom scan of the reduced expression found field atoms. -/
def kernel_has_fields (env : GltEnv) : Bool :=
  !env.fieldAtoms.isEmpty

/-- Whether the bilinear form declares fields: `sorted(form.fields)`
(glt.py lines 683-685), used by the interface's guards. -/
def interface_has_fields (env : GltEnv) : Bool :=
  !env.formFields.isEmpty

/-- The kernel's positional signature (glt.py lines 598-603):
`coordinates → (degrees, spans, basis) if fields or mapping →
field coefficient arrays → mapping coefficient arrays → output matrices`,
wrapped in `build_arguments` (basic args in front, constants at the end). -/
def kernel_func_args (env : GltEnv) : List ArgSlot :=
  let gridArgs :=
    if kernel_has_fields env || env.mappingPresent then
      degree_args env ++ span_args env ++ basis_args env
    else []
  GltKernel_build_arguments env
    (coordinate_args env ++ gridArgs ++ fields_coeffs_args env ++
      kernel_mapping_coeff_args env ++ mats_args env.expr)

/-- The values the interface passes for the field-coefficient parameters:
`[DottedName(F, '_coeffs', '_data') for F in fields]` with `fields` the
sorted form fields (glt.py lines 785-786). -/
def field_data_args (env : GltEnv) : List ArgSlot :=
  env.formFields.map ArgSlot.field_data

/-- The argument list of the interface's call to the kernel
(glt.py lines 788-794): same block structure as the kernel signature, with
the interface-side guard `if fields or mapping` using the sorted form
fields, and `kernel.build_arguments` wrapping the list. -/
def interface_call_args (env : GltEnv) : List ArgSlot :=
  let gridArgs :=
    if interface_has_fields env || env.mappingPresent then
      degree_args env ++ span_args env ++ basis_args env
    else []
  GltKernel_build_arguments env
    (coordinate_args env ++ gridArgs ++ field_data_args env ++
      kernel_mapping_coeff_args env ++ mats_args env.expr)

/-- The interface's basic arguments (glt.py lines 714-720): the kernel's
basic args, then the test space `W`, then — when a mapping or fields are
present — the opaque `basis_values` object. -/
def interface_basic_args (env : GltEnv) : List ArgSlot :=
  kernel_basic_args env ++ [ArgSlot.test_space] ++
    (if env.mappingPresent || interface_has_fields env then [ArgSlot.basis_values] else [])

/-- The output-buffer parameters of the interface, each with default `Nil`:
`mats = [Assign(M, Nil()) for M in global_mats]` (glt.py lines 807-808). -/
def mats_nil_args (e : SymExpr) : List ArgSlot :=
  (global_mats e).map (fun ij => ArgSlot.mat_nil ij.1 ij.2)

/-- The field objects in the interface signature (sorted form fields). -/
def field_obj_args (env : GltEnv) : List ArgSlot :=
  env.formFields.map ArgSlot.field_obj

/-- The optional mapping object (glt.py lines 689-690, 810-811). -/
def mapping_arg (env : GltEnv) : List ArgSlot :=
  if env.mappingPresent then [ArgSlot.mapping_obj] else []

/-- `GltInterface.build_arguments` (glt.py lines 658-660): basic args first,
data at the end. -/
def GltInterface_build_arguments (env : GltEnv) (data : List ArgSlot) : List ArgSlot :=
  interface_basic_args env ++ data

/-- The interface's positional signature (glt.py lines 806-832): a four-way
branch on the presence of constants and coordinates assembles
`mapping? + constants + coordinates + fields + mats`, then
`build_arguments` prepends the basic args. -/
def interface_func_args (env : GltEnv) : List ArgSlot :=
  let mats := mats_nil_args env.expr
  let args :=
    if env.constants.isEmpty then
      if env.coordinates.isEmpty then
        mapping_arg env ++ field_obj_args env ++ mats
      else
        mapping_arg env ++ coordinate_args env ++ field_obj_args env ++ mats
    else
      if env.coordinates.isEmpty then
        mapping_arg env ++ constant_args env ++ field_obj_args env ++ mats
      else
        mapping_arg env ++ constant_args env ++ coordinate_args env ++
          field_obj_args env ++ mats
  GltInterface_build_arguments env args

/-- Modelled from the spec: the flat signature claimed for the Interface,
`(mapping?, constants..., coordinates..., field_objects...,
output_buffers_or_none...)` (spec 4.2 output line), written for comparison
with `interface_func_args`. -/
def spec_claimed_interface_args (env : GltEnv) : List ArgSlot :=
  mapping_arg env ++ constant_args env ++ coordinate_args env ++
    field_obj_args env ++ mats_nil_args env.expr

/-- Insertion of a string into a sorted list (model of python `sorted`). -/
def insertSorted (s : String) : List String → List String
  | [] => [s]
  | x :: xs => if s ≤ x then s :: x :: xs else x :: insertSorted s xs

/-- Sorting a list of strings (model of python `sorted`). -/
def sortStrings (l : List String) : List String :=
  l.foldr insertSorted []

/-- The distinct field spaces in sorted order: `groupby(sorted(field_atoms,
key=space), space)` (glt.py lines 346-348) yields one group per distinct
space name. -/
def field_space_groups (env : GltEnv) : List String :=
  (sortStrings (env.fieldAtoms.map FieldAtom.space)).dedup

/-- A sub-kernel dependency of the kernel: one `EvalArrayField` per distinct
field space, and at most one `EvalArrayMapping` carrying its `nderiv`. -/
inductive SubKernel where
  | evalField (space : String)
  | evalMapping (nderiv : Nat)
deriving DecidableEq, Repr

/-- The field sub-kernels (glt.py lines 342-363): built only when the atom
scan found field atoms, one per distinct field space in sorted order. -/
def eval_fields (env : GltEnv) : List SubKernel :=
  if env.fieldAtoms.isEmpty then []
  else (field_space_groups env).map SubKernel.evalField

/-- The kernel's dependency list (glt.py lines 365-366, 397-398): the field
sub-kernels, then the mapping sub-kernel when a mapping is present. -/
def kernel_dependencies (env : GltEnv) : List SubKernel :=
  eval_fields env ++
    (match eval_mapping_nderiv env with
     | some n => [SubKernel.evalMapping n]
     | none => [])

/-- The interface's return statement (glt.py lines 797-803): the single
buffer when there is exactly one output matrix, else the full tuple. -/
inductive InterfaceReturn where
  | single (m : Nat × Nat)
  | tuple (ms : List (Nat × Nat))
deriving DecidableEq, Repr

/-- `if len(global_mats) == 1: Return(global_mats[0]) else Return(global_mats)`. -/
def interface_result (e : SymExpr) : InterfaceReturn :=
  if (global_mats e).length = 1 then InterfaceReturn.single ((global_mats e).headD (0, 0))
  else InterfaceReturn.tuple (global_mats e)

/-- The grid shape passed to `zeros` in the conditional allocation
(glt.py lines 757-766): the tuple of per-axis lengths `k1 .. kd`,
represented here by the 1-based axis numbers. -/
def grid_shape (env : GltEnv) : List Nat :=
  (List.range env.dim).map (fun i => i + 1)

/-- One statement of the generated interface body. -/
inductive Stmt where
  | assignLen (i : Nat)
  | assignDegrees
  | assignSpans
  | assignBasis
  | assignMappingCoeff (i : Nat)
  | ifNilAlloc (mat : Nat × Nat) (shape : List Nat) (dtype : String)
  | callKernel (args : List ArgSlot)
  | ret (r : InterfaceReturn)
deriving DecidableEq, Repr

/-- The generated interface body (glt.py lines 722-804), in emission order:
the length prelude, the degree extraction, the span/basis extraction when a
mapping or fields are present, the mapping-coefficient extraction when a
mapping is present, one conditional allocation per output cell, the call to
the kernel, and the return statement. -/
def interface_body (env : GltEnv) : List Stmt :=
  let bodyPrelude := (List.range env.dim).map (fun i => Stmt.assignLen (i + 1))
  let degreesStmt := [Stmt.assignDegrees]
  let gridStmts :=
    if env.mappingPresent || interface_has_fields env then
      [Stmt.assignSpans, Stmt.assignBasis]
    else []
  let mapCoeffStmts :=
    if env.mappingPresent then
      (List.range (kernel_mapping_coeffs env).length).map Stmt.assignMappingCoeff
    else []
  let allocStmts :=
    ((global_mats env.expr).zip (global_mats_types env.expr)).map
      (fun p => Stmt.ifNilAlloc p.1 (grid_shape env) p.2)
  bodyPrelude ++ degreesStmt ++ gridStmts ++ mapCoeffStmts ++ allocStmts ++
    [Stmt.callKernel (interface_call_args env), Stmt.ret (interface_result env.expr)]

/-- An output buffer as the allocation semantics sees it. -/
structure Buf where
  shape : List Nat
  dtype : String
  zeroFilled : Bool
deriving DecidableEq, Repr

/-- `zeros(shape, dtype=dtype)`. -/
def zeros_buf (shape : List Nat) (dtype : String) : Buf :=
  { shape := shape, dtype := dtype, zeroFilled := true }

/-- Execution of `If(Is(M, Nil), [Assign(M, zeros(lengths, dtype))])`
on the caller-supplied value of `M`: a fresh zero buffer when the caller
passed `Nil`, the caller's buffer unchanged otherwise (there is no else
branch). -/
def run_if_nil_alloc (shape : List Nat) (dtype : String) : Option Buf → Buf
  | none => zeros_buf shape dtype
  | some b => b

/-- `self._in_arguments = list(self.coordinates) + list(self.kernel.constants)
+ list(fields)` (glt.py line 778), as the argument names the facade checks. -/
def interface_in_arguments (env : GltEnv) : List String :=
  env.coordinates ++ env.constants ++ env.formFields

/-- `self._inout_arguments = list(global_mats)` (glt.py line 777); the
buffers are the `IndexedBase('symbol_{i}{j}')` objects of glt.py line 299. -/
def interface_inout_arguments (env : GltEnv) : List String :=
  (global_mats env.expr).map (fun ij => "symbol_" ++ toString ij.1 ++ toString ij.2)

/-- The observable outcome of one `GltInterface` build.  The `tag` input
models `random_string(8)` (glt.py line 68, spl/api/glt.py lines 74-79),
which is the only per-build nondeterminism besides the enumeration order of
`expr.atoms(ScalarField)`. -/
structure BuiltInterface where
  name : String
  in_arguments : List String
  inout_arguments : List String
  func_args : List ArgSlot
  body : List Stmt
deriving DecidableEq, Repr

/-- One build of the interface from a symbol/space/mapping/backend
environment and a fresh random tag. -/
def build_interface (tag : String) (env : GltEnv) : BuiltInterface :=
  { name := "interface_" ++ tag
  , in_arguments := interface_in_arguments env
  , inout_arguments := interface_inout_arguments env
  , func_args := interface_func_args env
  , body := interface_body env }

/-- Errors raised by the facade. -/
inductive PyErr where
  | keyError (msg : String)
deriving DecidableEq, Repr

/-- Keyword-argument lookup (`kwargs[key]` on the caller's dict). -/
def lookupKw {V : Type} (kwargs : List (String × V)) (k : String) : Option V :=
  (kwargs.find? (fun p => p.1 = k)).map (fun p => p.2)

/-- The mandatory pass of `DiscreteGltExpr._check_arguments`
(spl/api/glt.py lines 97-105): copy each declared "in" name from the
caller's kwargs, raising `KeyError` at the first missing one. -/
def collect_mandatory {V : Type} : List String → List (String × V) →
    Except PyErr (List (String × V))
  | [], _ => Except.ok []
  | k :: ks, kwargs =>
      match lookupKw kwargs k with
      | some v =>
          match collect_mandatory ks kwargs with
          | Except.ok rest => Except.ok ((k, v) :: rest)
          | Except.error e => Except.error e
      | none => Except.error (PyErr.keyError ("Unconsistent argument with interface"))

/-- The optional pass (spl/api/glt.py lines 107-115): copy each declared
"inout" name when present, silently skipping missing ones. -/
def collect_optional {V : Type} : List String → List (String × V) → List (String × V)
  | [], _ => []
  | k :: ks, kwargs =>
      match lookupKw kwargs k with
      | some v => (k, v) :: collect_optional ks kwargs
      | none => collect_optional ks kwargs

/-- `DiscreteGltExpr._check_arguments` (spl/api/glt.py lines 88-117). -/
def check_arguments {V : Type} (inA inoutA : List String)
    (kwargs : List (String × V)) : Except PyErr (List (String × V)) :=
  match collect_mandatory inA kwargs with
  | Except.error e => Except.error e
  | Except.ok m => Except.ok (m ++ collect_optional inoutA kwargs)

/-- Slots that are coordinate arrays, coordinate variables or output
buffers — the vocabulary claim C2 allows in a field- and mapping-free
kernel signature. -/
def coordOrOutput : ArgSlot → Bool
  | .arr_t _ => true
  | .coordinate _ => true
  | .mat _ _ => true
  | _ => false

/-- Slots allowed by the amended claim C2: additionally the declared
constants, which `build_arguments` appends to every kernel signature. -/
def coordOrOutputOrConstant : ArgSlot → Bool
  | .arr_t _ => true
  | .coordinate _ => true
  | .mat _ _ => true
  | .constant _ => true
  | _ => false

/-- Concrete environment for the C1 witness: 2d, one coordinate, one
constant, two fields (atom enumeration order differing from the sorted
order), a mapping with two coefficient arrays, and a 2x2 matrix symbol. -/
def envC1 : GltEnv :=
  { dim := 2
  , coordinates := ["x1"]
  , constants := ["c"]
  , formFields := ["F", "G"]
  , fieldAtoms := [{ name := "G", space := "V" }, { name := "F", space := "V" }]
  , mappingPresent := true
  , mappingCoeffs := ["coeff_x", "coeff_y"]
  , mappingValues := ["x_values", "y_values"]
  , expr := SymExpr.matrix [[{ hasImaginaryUnit := false, maxDerivOrder := 1 },
                            { hasImaginaryUnit := true, maxDerivOrder := 2 }],
                           [{ hasImaginaryUnit := false, maxDerivOrder := 0 },
                            { hasImaginaryUnit := false, maxDerivOrder := 1 }]] }

/-- Concrete environment refuting claim C2 as stated: field- and
mapping-free, but with a declared constant `c`. -/
def envC2c : GltEnv :=
  { dim := 1
  , coordinates := []
  , constants := ["c"]
  , formFields := []
  , fieldAtoms := []
  , mappingPresent := false
  , mappingCoeffs := []
  , mappingValues := []
  , expr := SymExpr.scalar { hasImaginaryUnit := false, maxDerivOrder := 0 } }

/-- Concrete field- and mapping-free environment for the C2 witness. -/
def envC2w : GltEnv :=
  { dim := 2
  , coordinates := ["x1"]
  , constants := []
  , formFields := []
  , fieldAtoms := []
  , mappingPresent := false
  , mappingCoeffs := []
  , mappingValues := []
  , expr := SymExpr.scalar { hasImaginaryUnit := false, maxDerivOrder := 1 } }

/-- Concrete 2x1 matrix symbol with an imaginary cell, for the C3 witness. -/
def exprC3 : SymExpr :=
  SymExpr.matrix [[{ hasImaginaryUnit := true, maxDerivOrder := 0 }],
                  [{ hasImaginaryUnit := false, maxDerivOrder := 0 }]]

/-- Concrete 2x2 matrix symbol for the C4 witness. -/
def exprC4 : SymExpr :=
  SymExpr.matrix [[{ hasImaginaryUnit := false, maxDerivOrder := 0 },
                   { hasImaginaryUnit := true, maxDerivOrder := 0 }],
                  [{ hasImaginaryUnit := false, maxDerivOrder := 0 },
                   { hasImaginaryUnit := false, maxDerivOrder := 0 }]]

/-- Concrete environment for the C5 witness: a field, a mapping and a
complex scalar symbol. -/
def envC5 : GltEnv :=
  { dim := 1
  , coordinates := []
  , constants := []
  , formFields := ["F"]
  , fieldAtoms := [{ name := "F", space := "V" }]
  , mappingPresent := true
  , mappingCoeffs := ["coeff_x"]
  , mappingValues := ["x_values"]
  , expr := SymExpr.scalar { hasImaginaryUnit := true, maxDerivOrder := 0 } }

/-- Minimal concrete environment refuting claim C6 as stated: even with no
mapping, constants, coordinates or fields, the generated signature starts
with the coordinate arrays and the test-space object. -/
def envC6 : GltEnv :=
  { dim := 1
  , coordinates := []
  , constants := []
  , formFields := []
  , fieldAtoms := []
  , mappingPresent := false
  , mappingCoeffs := []
  , mappingValues := []
  , expr := SymExpr.scalar { hasImaginaryUnit := false, maxDerivOrder := 0 } }

/-- Concrete environment refuting claim C8 as stated: a mapping is present
and no cell contains any derivative, so the scanned maximum is 0 while the
code passes 1. -/
def envC8 : GltEnv :=
  { dim := 2
  , coordinates := []
  , constants := []
  , formFields := []
  , fieldAtoms := []
  , mappingPresent := true
  , mappingCoeffs := ["coeff_x"]
  , mappingValues := ["x_values"]
  , expr := SymExpr.scalar { hasImaginaryUnit := false, maxDerivOrder := 0 } }

/-- Concrete environment for the C8 witness (mapping present, second-order
derivatives in the symbol). -/
def envC8w : GltEnv :=
  { dim := 1
  , coordinates := []
  , constants := []
  , formFields := []
  , fieldAtoms := []
  , mappingPresent := true
  , mappingCoeffs := ["coeff_x"]
  , mappingValues := ["x_values"]
  , expr := SymExpr.scalar { hasImaginaryUnit := false, maxDerivOrder := 2 } }

/-- Concrete environment for the C9 witness. -/
def envC9 : GltEnv :=
  { dim := 2
  , coordinates := ["x1"]
  , constants := ["mu"]
  , formFields := ["F"]
  , fieldAtoms := [{ name := "F", space := "V" }]
  , mappingPresent := true
  , mappingCoeffs := ["coeff_x"]
  , mappingValues := ["x_values"]
  , expr := SymExpr.matrix [[{ hasImaginaryUnit := false, maxDerivOrder := 1 }]] }

/-- Concrete mapping-free environment for the C10 witness. -/
def envC10 : GltEnv :=
  { dim := 3
  , coordinates := []
  , constants := []
  , formFields := ["F"]
  , fieldAtoms := [{ name := "F", space := "V" }]
  , mappingPresent := false
  , mappingCoeffs := ["stale_coeff"]
  , mappingValues := ["stale_value"]
  , expr := SymExpr.scalar { hasImaginaryUnit := false, maxDerivOrder := 1 } }

/-- Length of a row-major index enumeration. -/
theorem length_range_flatMap {α : Type} (r c : Nat) (f : Nat → Nat → α) :
    ((List.range r).flatMap (fun i => (List.range c).map (f i))).length = r * c := by
  induction r with
  | zero => simp
  | succ n ih =>
    rw [List.range_succ, List.flatMap_append]
    simp [ih, Nat.succ_mul]

/-- Element `i * c + j` of a row-major index enumeration. -/
theorem getElem?_range_flatMap {α : Type} (r c : Nat) (f : Nat → Nat → α) (i j : Nat)
    (hi : i < r) (hj : j < c) :
    ((List.range r).flatMap (fun i => (List.range c).map (f i)))[i * c + j]? = some (f i j) := by
  induction r with
  | zero => omega
  | succ n ih =>
    rw [List.range_succ, List.flatMap_append]
    rcases Nat.lt_or_ge i n with h | h
    · rw [List.getElem?_append_left]
      · exact ih h
      · rw [length_range_flatMap]
        calc i * c + j < i * c + c := by omega
          _ = (i + 1) * c := by ring
          _ ≤ n * c := Nat.mul_le_mul_right c h
    · have hin : i = n := by omega
      subst hin
      rw [List.getElem?_append_right (by rw [length_range_flatMap]; omega)]
      rw [length_range_flatMap]
      have hidx : i * c + j - i * c = j := by omega
      rw [hidx]
      simp [List.getElem?_map, List.getElem?_range hj]

/-- Mapping a constant function is a replicate. -/
theorem map_cat_const {α : Type} (g : α → ArgSlot) (c : ArgCat)
    (hg : ∀ x, (g x).cat = c) (l : List α) :
    (l.map g).map ArgSlot.cat = List.replicate l.length c := by
  induction l with
  | nil => rfl
  | cons x xs ih => simp [hg, ih, List.replicate_succ]

/-- Shifting the initial accumulator out of a running maximum. -/
theorem foldl_max_shift {β : Type} (f : β → Nat) (l : List β) :
    ∀ a : Nat,
      l.foldl (fun acc x => Nat.max acc (f x)) a =
        Nat.max a (l.foldl (fun acc x => Nat.max acc (f x)) 0) := by
  induction l with
  | nil => intro a; simp
  | cons x xs ih =>
    intro a
    simp only [List.foldl_cons]
    rw [ih (Nat.max a (f x)), ih (Nat.max 0 (f x))]
    simp [Nat.zero_max, Nat.max_assoc]

/-- Shifting the initial accumulator out of a doubly nested running
maximum over index ranges. -/
theorem foldl2_max_shift (r c : Nat) (g : Nat → Nat → Nat) (a : Nat) :
    (List.range r).foldl
      (fun acc i => (List.range c).foldl (fun b j => Nat.max b (g i j)) acc) a =
    Nat.max a ((List.range r).foldl
      (fun acc i => (List.range c).foldl (fun b j => Nat.max b (g i j)) acc) 0) := by
  have hstep : ∀ (l : List Nat) (a : Nat),
      l.foldl (fun acc i => (List.range c).foldl (fun b j => Nat.max b (g i j)) acc) a =
      l.foldl (fun acc i =>
        Nat.max acc ((List.range c).foldl (fun b j => Nat.max b (g i j)) 0)) a := by
    intro l a
    exact List.foldl_ext _ _ a (fun x i _ => foldl_max_shift (fun j => g i j) (List.range c) x)
  rw [hstep, hstep]
  exact foldl_max_shift
    (fun i => (List.range c).foldl (fun b j => Nat.max b (g i j)) 0) (List.range r) a

/-- The kernel's `nderiv` is the scanned per-cell maximum, floored at 1. -/
theorem kernel_nderiv_eq_max (e : SymExpr) :
    kernel_nderiv e = Nat.max 1 (spec_scanned_nderiv e) := by
  cases e with
  | scalar c => rfl
  | matrix cells =>
    show (List.range (n_rows (SymExpr.matrix cells))).foldl _ 1 =
      Nat.max 1 ((List.range (n_rows (SymExpr.matrix cells))).foldl _ 0)
    exact foldl2_max_shift (n_rows (SymExpr.matrix cells)) (n_cols (SymExpr.matrix cells))
      (fun i j => (cellAt (SymExpr.matrix cells) i j).maxDerivOrder) 1

/-- Equal lengths make emptiness agree between the expression's field atoms
and the form's fields. -/
theorem fieldAtoms_isEmpty_iff (env : GltEnv)
    (h : env.fieldAtoms.length = env.formFields.length) :
    env.fieldAtoms.isEmpty = env.formFields.isEmpty := by
  cases hf : env.fieldAtoms <;> cases hg : env.formFields <;> simp_all

/-- Inserting into a sorted list never yields the empty list. -/
theorem insertSorted_ne_nil (s : String) (l : List String) : insertSorted s l ≠ [] := by
  cases l with
  | nil => simp [insertSorted]
  | cons x xs =>
    simp only [insertSorted]
    split <;> simp

/-- Sorting a non-empty list yields a non-empty list. -/
theorem sortStrings_ne_nil (x : String) (xs : List String) : sortStrings (x :: xs) ≠ [] := by
  show insertSorted x (sortStrings xs) ≠ []
  exact insertSorted_ne_nil x (sortStrings xs)

/-- The dependency list is empty exactly for field- and mapping-free
symbols. -/
theorem kernel_dependencies_eq_nil (env : GltEnv) :
    kernel_dependencies env = [] ↔ (env.fieldAtoms = [] ∧ env.mappingPresent = false) := by
  unfold kernel_dependencies eval_fields eval_mapping_nderiv
  cases hm : env.mappingPresent with
  | true => cases hf : env.fieldAtoms <;> simp [hf]
  | false =>
    cases hf : env.fieldAtoms with
    | nil => simp [hf]
    | cons f fs =>
      have h1 : sortStrings (f.space :: fs.map FieldAtom.space) ≠ [] :=
        sortStrings_ne_nil f.space (fs.map FieldAtom.space)
      simp [field_space_groups, hf, h1]

/-- The types list is the row-major map of the per-cell dtype. -/
theorem global_mats_types_eq (e : SymExpr) :
    global_mats_types e = (global_mats e).map
      (fun ij => if (cellAt e ij.1 ij.2).hasImaginaryUnit then "complex" else "float") := by
  cases e with
  | scalar c => rfl
  | matrix cells =>
    simp only [global_mats_types, global_mats, List.map_flatMap, List.map_map]
    rfl

/-- Zipping a list with its own map pairs each element with its image. -/
theorem zip_self_map {α β : Type} (l : List α) (f : α → β) :
    l.zip (l.map f) = l.map (fun x => (x, f x)) := by
  have h := List.zip_map' id f l
  simpa using h

/-- Keys produced by the optional pass all come from the declared "inout"
names. -/
theorem collect_optional_keys {V : Type} (inoutA : List String)
    (kwargs : List (String × V)) :
    ∀ p ∈ collect_optional inoutA kwargs, p.1 ∈ inoutA := by
  induction inoutA with
  | nil => simp [collect_optional]
  | cons k ks ih =>
    intro p hp
    unfold collect_optional at hp
    cases hl : lookupKw kwargs k with
    | some v =>
      rw [hl] at hp
      rcases List.mem_cons.mp hp with rfl | hmem
      · simp
      · exact List.mem_cons_of_mem _ (ih p hmem)
    | none =>
      rw [hl] at hp
      exact List.mem_cons_of_mem _ (ih p hp)

/-- The mandatory pass raises `KeyError` whenever some declared "in" name is
missing from the caller's kwargs. -/
theorem collect_mandatory_error {V : Type} (inA : List String)
    (kwargs : List (String × V)) (h : ∃ k ∈ inA, lookupKw kwargs k = none) :
    collect_mandatory inA kwargs =
      Except.error (PyErr.keyError ("Unconsistent argument with interface")) := by
  induction inA with
  | nil => simp at h
  | cons k ks ih =>
    obtain ⟨k', hk', hnone⟩ := h
    rcases List.mem_cons.mp hk' with rfl | hmem
    · simp [collect_mandatory, hnone]
    · cases hl : lookupKw kwargs k with
      | none => simp [collect_mandatory, hl]
      | some v =>
        have hrec := ih ⟨k', hmem, hnone⟩
        simp [collect_mandatory, hl, hrec]

/-- The mandatory pass succeeds when every declared "in" name is present,
and only the declared names are copied. -/
theorem collect_mandatory_ok {V : Type} (inA : List String)
    (kwargs : List (String × V)) (h : ∀ k ∈ inA, (lookupKw kwargs k).isSome) :
    ∃ res, collect_mandatory inA kwargs = Except.ok res ∧ ∀ p ∈ res, p.1 ∈ inA := by
  induction inA with
  | nil => exact ⟨[], rfl, by simp⟩
  | cons k ks ih =>
    have hk := h k (by simp)
    cases hl : lookupKw kwargs k with
    | none => rw [hl] at hk; simp at hk
    | some v =>
      obtain ⟨res, hres, hkeys⟩ := ih (fun k' hk' => h k' (List.mem_cons_of_mem _ hk'))
      refine ⟨(k, v) :: res, ?_, ?_⟩
      · simp [collect_mandatory, hl, hres]
      · intro p hp
        rcases List.mem_cons.mp hp with rfl | hmem
        · simp
        · exact List.mem_cons_of_mem _ (hkeys p hmem)

/-- C1: for every Kernel and the Interface built from it, the order in
which the Kernel declares its positional arguments (coordinates, then
degrees/spans/basis if field- or mapping-dependent, then field coefficient
arrays, then mapping coefficient arrays, then output matrices) is exactly
the order in which the Interface constructs the argument list of its call
to that Kernel.  The hypothesis records that the reduced expression's field
atoms enumerate the same fields as the form declares (one coefficient array
per field). -/
theorem C1_kernel_interface_argument_order (env : GltEnv)
    (h : env.fieldAtoms.length = env.formFields.length) :
    (interface_call_args env).map ArgSlot.cat = (kernel_func_args env).map ArgSlot.cat := by
  have hemp : env.fieldAtoms.isEmpty = env.formFields.isEmpty :=
    fieldAtoms_isEmpty_iff env h
  have hguard : interface_has_fields env = kernel_has_fields env := by
    unfold interface_has_fields kernel_has_fields
    rw [hemp]
  have hblocks : (field_data_args env).map ArgSlot.cat =
      (fields_coeffs_args env).map ArgSlot.cat := by
    unfold field_data_args fields_coeffs_args
    rw [map_cat_const ArgSlot.field_data ArgCat.fieldCoeffCat (fun _ => rfl),
      map_cat_const (fun (f : FieldAtom) => ArgSlot.field_coeff ("coeff_" ++ f.name))
        ArgCat.fieldCoeffCat (fun _ => rfl), h]
  simp only [interface_call_args, kernel_func_args, GltKernel_build_arguments, hguard]
  by_cases hc : env.constants.isEmpty <;>
    simp [hc, List.map_append, hblocks]

/-- C1 witness: a concrete environment with fields, mapping, constants and
coordinates satisfying the hypothesis, at which the argument orders agree. -/
theorem C1_kernel_interface_argument_order_witness :
    envC1.fieldAtoms.length = envC1.formFields.length ∧
    (interface_call_args envC1).map ArgSlot.cat = (kernel_func_args envC1).map ArgSlot.cat :=
  ⟨rfl, C1_kernel_interface_argument_order envC1 rfl⟩

/-- C2 counterexample: the claim says a field- and mapping-free Kernel's
signature contains only coordinate arrays and output buffers, but for a
symbol with a declared constant the generated signature also contains that
constant (appended by `build_arguments`). -/
theorem C2_counterexample :
    envC2c.fieldAtoms = [] ∧ envC2c.mappingPresent = false ∧
    ¬ (∀ s ∈ kernel_func_args envC2c, coordOrOutput s = true) := by
  refine ⟨rfl, rfl, ?_⟩
  decide

/-- C2 (amended): a Kernel built from a symbol with no field atoms and no
mapping has an empty sub-kernel dependency list and a positional signature
containing only coordinate arrays/variables, output buffers, and the form's
declared constants; and in general the dependency list is non-empty iff the
symbol is field- or mapping-dependent. -/
theorem C2_kernel_dependencies_and_signature (env : GltEnv) :
    ((env.fieldAtoms = [] ∧ env.mappingPresent = false) →
      kernel_dependencies env = [] ∧
        ∀ s ∈ kernel_func_args env, coordOrOutputOrConstant s = true) ∧
    (kernel_dependencies env ≠ [] ↔ (env.fieldAtoms ≠ [] ∨ env.mappingPresent = true)) := by
  constructor
  · rintro ⟨hf, hm⟩
    constructor
    · exact (kernel_dependencies_eq_nil env).mpr ⟨hf, hm⟩
    · intro s hs
      have hmc : kernel_mapping_coeffs env = [] := by
        simp [kernel_mapping_coeffs, eval_mapping_nderiv, hm]
      have hargs : kernel_func_args env =
          kernel_basic_args env ++
            ((coordinate_args env ++ mats_args env.expr) ++ constant_args env) := by
        by_cases hc : env.constants.isEmpty
        · have hcnil : constant_args env = [] := by
            simp [constant_args, List.isEmpty_iff.mp hc]
          simp [kernel_func_args, GltKernel_build_arguments, kernel_has_fields, hf, hm,
            fields_coeffs_args, kernel_mapping_coeff_args, hmc, hc, hcnil]
        · simp [kernel_func_args, GltKernel_build_arguments, kernel_has_fields, hf, hm,
            fields_coeffs_args, kernel_mapping_coeff_args, hmc, hc]
      rw [hargs] at hs
      simp only [List.mem_append] at hs
      rcases hs with h1 | (h2 | h3) | h4
      · obtain ⟨i, _, rfl⟩ := by simpa [kernel_basic_args] using h1
        rfl
      · obtain ⟨n, _, rfl⟩ := by simpa [coordinate_args] using h2
        rfl
      · obtain ⟨i, j, _, rfl⟩ := by simpa [mats_args] using h3
        rfl
      · obtain ⟨n, _, rfl⟩ := by simpa [constant_args] using h4
        rfl
  · rw [Ne, kernel_dependencies_eq_nil]
    cases hm : env.mappingPresent <;> cases hf : env.fieldAtoms <;> simp [hf]

/-- C2 witness: a concrete field- and mapping-free environment at which the
amended claim's conclusion holds. -/
theorem C2_kernel_dependencies_and_signature_witness :
    kernel_dependencies envC2w = [] ∧
    ∀ s ∈ kernel_func_args envC2w, coordOrOutputOrConstant s = true :=
  (C2_kernel_dependencies_and_signature envC2w).1 ⟨rfl, rfl⟩

/-- C3: for every built Kernel and every output cell, the recorded dtype of
that cell is `complex` exactly when the reduced symbol expression in that
cell contains an imaginary unit atom, and `float` in every other cell, for
both matrix-valued and scalar symbols. -/
theorem C3_dtype_complex_iff_imaginary (e : SymExpr) (p : (Nat × Nat) × String)
    (hp : p ∈ (global_mats e).zip (global_mats_types e)) :
    (p.2 = "complex" ↔ (cellAt e p.1.1 p.1.2).hasImaginaryUnit = true) ∧
    (p.2 = "float" ↔ (cellAt e p.1.1 p.1.2).hasImaginaryUnit = false) := by
  rw [global_mats_types_eq, zip_self_map] at hp
  obtain ⟨ij, -, rfl⟩ := List.mem_map.mp hp
  by_cases h : (cellAt e ij.1 ij.2).hasImaginaryUnit <;> simp [h]

/-- C3 witness: a concrete 2x1 matrix symbol whose first cell carries an
imaginary unit and is recorded `complex`. -/
theorem C3_dtype_complex_iff_imaginary_witness :
    (((0, 0), "complex") ∈ (global_mats exprC3).zip (global_mats_types exprC3)) ∧
    ((("complex" : String) = "complex" ↔ (cellAt exprC3 0 0).hasImaginaryUnit = true) ∧
     (("complex" : String) = "float" ↔ (cellAt exprC3 0 0).hasImaginaryUnit = false)) :=
  ⟨by decide, C3_dtype_complex_iff_imaginary exprC3 ((0, 0), "complex") (by decide)⟩

/-- C4: the ordered output set has exactly `n_rows * n_cols` entries in
row-major order (the entry at linear index `i * n_cols + j` is cell
`(i, j)`), exactly one entry for a scalar symbol, and the Interface returns
the single buffer when there is exactly one output matrix and the full
ordered tuple otherwise. -/
theorem C4_output_matrix_set (e : SymExpr) :
    (global_mats e).length = n_rows e * n_cols e ∧
    (∀ i j, i < n_rows e → j < n_cols e →
      (global_mats e)[i * n_cols e + j]? = some (i, j)) ∧
    (∀ c, e = SymExpr.scalar c → global_mats e = [(0, 0)]) ∧
    ((global_mats e).length = 1 →
      ∃ m, global_mats e = [m] ∧ interface_result e = InterfaceReturn.single m) ∧
    ((global_mats e).length ≠ 1 → interface_result e = InterfaceReturn.tuple (global_mats e)) := by
  refine ⟨length_range_flatMap (n_rows e) (n_cols e) _, ?_, ?_, ?_, ?_⟩
  · intro i j hi hj
    exact getElem?_range_flatMap (n_rows e) (n_cols e) _ i j hi hj
  · rintro c rfl
    rfl
  · intro hlen
    cases hmats : global_mats e with
    | nil => rw [hmats] at hlen; simp at hlen
    | cons m ms =>
      rw [hmats] at hlen
      have hms : ms = [] := by
        simp at hlen
        exact hlen
      subst hms
      refine ⟨m, rfl, ?_⟩
      unfold interface_result
      rw [hmats]
      rfl
  · intro hlen
    unfold interface_result
    rw [if_neg hlen]

/-- C4 witness: in the concrete 2x2 matrix symbol, the entry at linear
index `1 * n_cols + 0` is cell `(1, 0)`. -/
theorem C4_output_matrix_set_witness :
    (1 < n_rows exprC4 ∧ 0 < n_cols exprC4) ∧
    (global_mats exprC4)[1 * n_cols exprC4 + 0]? = some (1, 0) :=
  ⟨⟨by decide, by decide⟩,
    (C4_output_matrix_set exprC4).2.1 1 0 (by decide) (by decide)⟩

/-- C5: for every output cell, the generated Interface body contains the
conditional allocation `If(Is(M, Nil), Assign(M, zeros(grid, dtype)))` with
that cell's recorded dtype; executing it allocates a zero-filled buffer of
the grid shape and that dtype when the caller passed `Nil`, and leaves a
caller-supplied buffer unchanged otherwise. -/
theorem C5_conditional_allocation (env : GltEnv) (p : (Nat × Nat) × String)
    (hp : p ∈ (global_mats env.expr).zip (global_mats_types env.expr)) :
    Stmt.ifNilAlloc p.1 (grid_shape env) p.2 ∈ interface_body env ∧
    run_if_nil_alloc (grid_shape env) p.2 none = zeros_buf (grid_shape env) p.2 ∧
    (∀ b, run_if_nil_alloc (grid_shape env) p.2 (some b) = b) := by
  refine ⟨?_, rfl, fun b => rfl⟩
  have hmem : Stmt.ifNilAlloc p.1 (grid_shape env) p.2 ∈
      ((global_mats env.expr).zip (global_mats_types env.expr)).map
        (fun q => Stmt.ifNilAlloc q.1 (grid_shape env) q.2) :=
    List.mem_map.mpr ⟨p, hp, rfl⟩
  simp only [interface_body, List.mem_append]
  tauto

/-- C5 witness: a concrete environment with a complex scalar symbol, whose
single output cell gets its conditional allocation with dtype `complex`. -/
theorem C5_conditional_allocation_witness :
    (((0, 0), "complex") ∈ (global_mats envC5.expr).zip (global_mats_types envC5.expr)) ∧
    Stmt.ifNilAlloc (0, 0) (grid_shape envC5) "complex" ∈ interface_body envC5 :=
  ⟨by decide,
    (C5_conditional_allocation envC5 ((0, 0), "complex") (by decide)).1⟩

/-- C6 counterexample: the claim says the Interface's positional signature
is exactly `(mapping?, constants..., coordinates..., field_objects...,
output_buffers_or_none...)` with no other arguments; in the minimal
environment the generated signature additionally starts with the coordinate
array `arr_t1` and the test-space object, so the two lists differ. -/
theorem C6_counterexample :
    interface_func_args envC6 ≠ spec_claimed_interface_args envC6 := by
  decide

/-- C6 (amended): the Interface's positional signature is the basic-argument
block (coordinate arrays, the test-space object, and — when fields or a
mapping are present — the basis-values object) followed by exactly the flat
list `(mapping?, constants..., coordinates..., field_objects...,
output_buffers_or_none...)`, with no other arguments. -/
theorem C6_interface_signature (env : GltEnv) :
    interface_func_args env = interface_basic_args env ++ spec_claimed_interface_args env := by
  unfold interface_func_args GltInterface_build_arguments spec_claimed_interface_args
  by_cases hc : env.constants.isEmpty <;> by_cases hx : env.coordinates.isEmpty
  · have hcnil : constant_args env = [] := by
      simp [constant_args, List.isEmpty_iff.mp hc]
    have hxnil : coordinate_args env = [] := by
      simp [coordinate_args, List.isEmpty_iff.mp hx]
    simp [hc, hx, hcnil, hxnil]
  · have hcnil : constant_args env = [] := by
      simp [constant_args, List.isEmpty_iff.mp hc]
    simp [hc, hx, hcnil]
  · have hxnil : coordinate_args env = [] := by
      simp [coordinate_args, List.isEmpty_iff.mp hx]
    simp [hc, hx, hxnil]
  · simp [hc, hx]

/-- C7: for every Facade call, if any name in the Interface's declared "in"
argument list is missing from the caller-supplied keyword arguments, a
`KeyError` is raised and the call never proceeds; when all "in" names are
present the check succeeds even if "inout" names are missing, and only
declared names are forwarded (extra keyword arguments are silently
ignored). -/
theorem C7_check_arguments {V : Type} (inA inoutA : List String)
    (kwargs : List (String × V)) :
    ((∃ k ∈ inA, lookupKw kwargs k = none) →
      check_arguments inA inoutA kwargs =
        Except.error (PyErr.keyError ("Unconsistent argument with interface"))) ∧
    ((∀ k ∈ inA, (lookupKw kwargs k).isSome) →
      ∃ res, check_arguments inA inoutA kwargs = Except.ok res ∧
        ∀ p ∈ res, p.1 ∈ inA ++ inoutA) := by
  constructor
  · intro h
    unfold check_arguments
    rw [collect_mandatory_error inA kwargs h]
  · intro h
    obtain ⟨res, hres, hkeys⟩ := collect_mandatory_ok inA kwargs h
    refine ⟨res ++ collect_optional inoutA kwargs, ?_, ?_⟩
    · unfold check_arguments
      rw [hres]
    · intro p hp
      rcases List.mem_append.mp hp with h1 | h2
      · exact List.mem_append.mpr (Or.inl (hkeys p h1))
      · exact List.mem_append.mpr (Or.inr (collect_optional_keys inoutA kwargs p h2))

/-- C7 witness: with "in" name `t1` supplied, "inout" name `symbol_00`
missing, and an extra keyword, the check succeeds and forwards only
declared names. -/
theorem C7_check_arguments_witness :
    ∃ res, check_arguments ["t1"] ["symbol_00"] [("t1", (5 : Nat)), ("junk", 7)] =
        Except.ok res ∧ ∀ p ∈ res, p.1 ∈ ["t1"] ++ ["symbol_00"] :=
  (C7_check_arguments ["t1"] ["symbol_00"] [("t1", (5 : Nat)), ("junk", 7)]).2 (by decide)

/-- C8 counterexample: with a mapping present and a symbol containing no
derivative at all, the scanned per-cell maximum is 0 but the code passes
`nderiv = 1` to the mapping sub-kernel request, so the claim's "exactly
this maximum order is passed" fails. -/
theorem C8_counterexample :
    ¬ (eval_mapping_nderiv envC8 = some (spec_scanned_nderiv envC8.expr)) := by
  decide

/-- C8 (amended): when a mapping is present, the `nderiv` passed to the
mapping sub-kernel request is the maximum of 1 and the per-cell maximum
partial-derivative order obtained by scanning every cell of the reduced
symbol expression. -/
theorem C8_nderiv_passed (env : GltEnv) (hm : env.mappingPresent = true) :
    eval_mapping_nderiv env = some (Nat.max 1 (spec_scanned_nderiv env.expr)) := by
  simp [eval_mapping_nderiv, hm, kernel_nderiv_eq_max]

/-- C8 witness: a concrete mapping environment with second-order
derivatives in the symbol. -/
theorem C8_nderiv_passed_witness :
    eval_mapping_nderiv envC8w = some (Nat.max 1 (spec_scanned_nderiv envC8w.expr)) :=
  C8_nderiv_passed envC8w rfl

/-- C9: building the Interface twice from an identical
(symbol, spaces, mapping, backend) tuple — so with all deterministic inputs
equal, the nondeterministic field-atom enumeration a permutation, and fresh
random tags — yields "in" and "inout" argument lists identical in names and
order on both builds. -/
theorem C9_build_twice_same_classification (t1 t2 : String) (e1 e2 : GltEnv)
    (hatoms : e1.fieldAtoms.Perm e2.fieldAtoms)
    (hdim : e1.dim = e2.dim) (hco : e1.coordinates = e2.coordinates)
    (hc : e1.constants = e2.constants) (hff : e1.formFields = e2.formFields)
    (hm : e1.mappingPresent = e2.mappingPresent)
    (hmc : e1.mappingCoeffs = e2.mappingCoeffs)
    (hmv : e1.mappingValues = e2.mappingValues) (he : e1.expr = e2.expr) :
    (build_interface t1 e1).in_arguments = (build_interface t2 e2).in_arguments ∧
    (build_interface t1 e1).inout_arguments = (build_interface t2 e2).inout_arguments := by
  simp [build_interface, interface_in_arguments, interface_inout_arguments, hco, hc, hff, he]

/-- C9 witness: two builds with distinct tags from the same concrete
environment agree on both argument classifications. -/
theorem C9_build_twice_same_classification_witness :
    (build_interface "aaaaaaaa" envC9).in_arguments =
        (build_interface "bbbbbbbb" envC9).in_arguments ∧
    (build_interface "aaaaaaaa" envC9).inout_arguments =
        (build_interface "bbbbbbbb" envC9).inout_arguments :=
  C9_build_twice_same_classification "aaaaaaaa" "bbbbbbbb" envC9 envC9
    (List.Perm.refl _) rfl rfl rfl rfl rfl rfl rfl rfl

/-- C10: for every Kernel built without a mapping (so no mapping sub-kernel
exists), the accessors `mapping_coeffs` and `mapping_values` both return
the empty tuple. -/
theorem C10_mapping_accessors_empty (env : GltEnv) (hm : env.mappingPresent = false) :
    kernel_mapping_coeffs env = [] ∧ kernel_mapping_values env = [] := by
  simp [kernel_mapping_coeffs, kernel_mapping_values, eval_mapping_nderiv, hm]

/-- C10 witness: a concrete mapping-free environment (even with stale
sub-kernel name data present, the accessors return the empty tuple). -/
theorem C10_mapping_accessors_empty_witness :
    kernel_mapping_coeffs envC10 = [] ∧ kernel_mapping_values envC10 = [] :=
  C10_mapping_accessors_empty envC10 rfl

end Glt
